import Mathlib

/-!
Shallow embedding of the marlin 2D scene renderer (src/colors.rs,
src/entities.rs, src/marlin.rs).  Rust `f32`/`f64` coordinates are embedded
as `ℚ`: every operation the claims touch is field arithmetic and order
comparison, which ℚ models exactly.  Rust `u32` channels are `ℕ` with
explicit `% 2 ^ 32` where wrap-around matters.  Trigonometric rim points of
the circle fan are abstracted behind a `Trig` parameter (a pair of functions
degree ↦ ℚ); no claim depends on their values, only on the shape and length
of the emitted vertex list, so theorems quantify over the parameter.
Fallible Rust paths (panicking unwraps, out-of-bounds channels,
division by zero on an empty mix) are embedded as `Option`/`Except`.
-/

namespace Marlin

/-- Modulus of Rust `u32` arithmetic. -/
def U32MOD : ℕ := 2 ^ 32

/-! ## src/colors.rs -/

/-- `Color` — four `u32` channels (r, g, b, a), indexed as in the Rust
array `channels: [u32; 4]`. -/
structure Color where
  channels : Fin 4 → ℕ
deriving DecidableEq

/-- `Color::rgba_value_within_bounds`. -/
def Color.rgba_value_within_bounds (value : ℕ) : Bool :=
  decide (value ≤ 255)

/-- `Color::with_alpha` — panics (here: `none`) when any channel
exceeds 255, otherwise builds the color. -/
def Color.with_alpha (r g b a : ℕ) : Option Color :=
  if Color.rgba_value_within_bounds r ∧ Color.rgba_value_within_bounds g ∧
     Color.rgba_value_within_bounds b ∧ Color.rgba_value_within_bounds a then
    some ⟨![r, g, b, a]⟩
  else
    none

/-- `Color::new` — defaults alpha to 255. -/
def Color.new (r g b : ℕ) : Option Color :=
  Color.with_alpha r g b 255

/-- `Color::in_percentages` — first three channels divided by 255. -/
def Color.in_percentages (c : Color) : ℚ × ℚ × ℚ :=
  ((c.channels 0 : ℚ) / 255, (c.channels 1 : ℚ) / 255, (c.channels 2 : ℚ) / 255)

/-- `Color::mix` — channel-wise sum with `u32` wrap-around, then truncating
division by the (u32-cast) length.  The Rust code divides by
`colors.len() as u32`, which panics on an empty slice (division by zero);
the `with_alpha` call at the end panics when an averaged channel exceeds
255.  Both panics are embedded as `none`. -/
def Color.mix (colors : List Color) : Option Color :=
  if colors.isEmpty then
    none
  else
    let mixed : Fin 4 → ℕ := fun i =>
      (colors.foldl (fun acc c => (acc + c.channels i) % U32MOD) 0) /
        (colors.length % U32MOD)
    Color.with_alpha (mixed 0) (mixed 1) (mixed 2) (mixed 3)

/-- `From<[f32; 3]> for Color` followed by `Color::in_percentages`, the
round-trip a vertex color takes through `Vertex::new(..., color.into())`.
The `as u32` cast on an `f32` truncates toward zero and saturates into
`[0, 2^32 - 1]`. -/
def colorToChannel (q : ℚ) : ℕ :=
  min (Int.toNat ⌊q * 255⌋) (U32MOD - 1)

/-- The color round-trip `[f32;3] → Color → in_percentages`. -/
def colorRoundtrip (c : ℚ × ℚ × ℚ) : ℚ × ℚ × ℚ :=
  ((colorToChannel c.1 : ℚ) / 255, (colorToChannel c.2.1 : ℚ) / 255,
   (colorToChannel c.2.2 : ℚ) / 255)

/-! ## src/entities.rs -/

/-- `Vertex` — `position: [f32; 3]` and `color: [f32; 3]`, both embedded as
triples of ℚ. -/
structure Vertex where
  position : ℚ × ℚ × ℚ
  color : ℚ × ℚ × ℚ
deriving DecidableEq

/-- Abstract degree-indexed cosine/sine used by the circle fan:
`cosd i` stands for `cos (i * π / 180)` computed in `f32`, likewise `sind`.
No claim depends on their values. -/
structure Trig where
  cosd : ℕ → ℚ
  sind : ℕ → ℚ

/-- A trivial trig instantiation used to evaluate the embedding at concrete
inputs. -/
def trig0 : Trig := ⟨fun _ => 0, fun _ => 0⟩

/-- `ShapeKind`. -/
inductive ShapeKind where
  | Triangle : ShapeKind
  | Rectangle : ShapeKind
  | Circle : ℚ → ShapeKind
deriving DecidableEq

/-- `ShapeKind::requisite_points`. -/
def ShapeKind.requisite_points : ShapeKind → ℕ
  | .Triangle => 3
  | .Rectangle => 4
  | .Circle _ => 1

/-- `ShapeError`. -/
inductive ShapeError where
  | VertexOverspecification : ShapeKind → ShapeError
  | VertexUnderspecification : ShapeKind → ShapeError
deriving DecidableEq

/-- `EntityBuilder` — carries the tessellated vertex list. -/
structure EntityBuilder where
  vertices : List Vertex
deriving DecidableEq

/-- `EntityBuilder::valid_vertex_number` — `num_vertices.cmp(&requisite)`. -/
def EntityBuilder.valid_vertex_number (kind : ShapeKind) (num_vertices : ℕ) :
    Option ShapeError :=
  match compare num_vertices kind.requisite_points with
  | .lt => some (ShapeError.VertexUnderspecification kind)
  | .gt => some (ShapeError.VertexOverspecification kind)
  | .eq => none

/-- One rim point of the circle fan:
`Vertex::new(cx + r·cos θ, cy + r·sin θ, 0.0, center.color.into())` at
`θ = i` degrees. -/
def circleRim (t : Trig) (radius : ℚ) (center : Vertex) (i : ℕ) : Vertex :=
  { position := (center.position.1 + radius * t.cosd i,
                 center.position.2.1 + radius * t.sind i, 0),
    color := colorRoundtrip center.color }

/-- The explicit seam vertex at angle 0:
`Vertex::new(cx + radius, cy, 0.0, center.color.into())`. -/
def circleSeam (radius : ℚ) (center : Vertex) : Vertex :=
  { position := (center.position.1 + radius, center.position.2.1, 0),
    color := colorRoundtrip center.color }

/-- The circle arm of `EntityBuilder::from_shape`: push seam vertex, push
the center, then for `i in 1..360` push the rim point twice and the center,
push the seam vertex again, and reverse the whole list. -/
def circlePoints (t : Trig) (radius : ℚ) (center : Vertex) : List Vertex :=
  let looped :=
    (List.range' 1 359).foldl
      (fun acc i => acc ++ [circleRim t radius center i,
                            circleRim t radius center i, center])
      [circleSeam radius center, center]
  (looped ++ [circleSeam radius center]).reverse

/-- `EntityBuilder::from_shape`.  Rust indexes `vertices[0..]` directly,
which cannot go out of bounds after `valid_vertex_number` passed; the
unreachable short-list branches return `[]`. -/
def EntityBuilder.from_shape (t : Trig) (kind : ShapeKind)
    (vertices : List Vertex) : Except ShapeError EntityBuilder :=
  match EntityBuilder.valid_vertex_number kind vertices.length with
  | some err => .error err
  | none =>
    let points := match kind with
      | .Triangle => vertices
      | .Rectangle =>
        match vertices with
        | v0 :: v1 :: v2 :: v3 :: _ => [v0, v1, v2, v2, v3, v0]
        | _ => []
      | .Circle radius =>
        match vertices with
        | center :: _ => circlePoints t radius center
        | _ => []
    .ok ⟨points⟩

/-- `Entity::normalize_coordinates` — divide x by the width, y by the
height, pass z through, round-trip the color through
`vertex.color.into()`. -/
def normalize_coordinates (vertices : List Vertex) (width height : ℚ) :
    List Vertex :=
  vertices.map fun v =>
    { position := (v.position.1 / width, v.position.2.1 / height,
                   v.position.2.2),
      color := colorRoundtrip v.color }

/-- Dimensions of the surface an entity was normalized against. -/
structure SurfaceDimensions where
  horizontal : ℚ
  vertical : ℚ
deriving DecidableEq

/-- `Entity` — the normalized vertex list (GPU buffer and pipeline handles
are out of scope).  Modelled from the spec: the field `surface_dimensions`
is read by `Button::{leftmost,rightmost,topmost,bottommost}_value` in
src/marlin.rs but is absent from the `Entity` declaration in
src/entities.rs; per §4.2 of the spec the entity is normalized by "the
target viewport's width/height", so the field carries that width/height
pair, undoing the normalization when multiplied back. -/
structure Entity where
  vertices : List Vertex
  surface_dimensions : SurfaceDimensions
deriving DecidableEq

/-- `Entity::new` — stores the normalized points. -/
def Entity.new (width height : ℚ) (vertices : List Vertex) : Entity :=
  { vertices := normalize_coordinates vertices width height,
    surface_dimensions := ⟨width, height⟩ }

/-- `EntityBuilder::build` — `Entity::new(gpu, config, width as f32,
height as f32, self.vertices)`. -/
def EntityBuilder.build (b : EntityBuilder) (width height : ℚ) : Entity :=
  Entity.new width height b.vertices

/-- `Entity::num_vertices`. -/
def Entity.num_vertices (e : Entity) : ℕ :=
  e.vertices.length

/-! ## src/marlin.rs -/

/-- `SceneName`. -/
inductive SceneName where
  | Home : SceneName
  | RootPicker : SceneName
  | Grapher : SceneName
  | Simulation : SceneName
deriving DecidableEq, Fintype

/-- `ButtonDimensions`. -/
structure ButtonDimensions where
  horizontal : ℚ
  vertical : ℚ
deriving DecidableEq

/-- Modelled from the spec: `Vertex::average` is called by `Button::new`
in src/marlin.rs but is not declared in src/entities.rs; per §4.5 of the
spec it is "the arithmetic mean of the ... vertices", taken here
component-wise over positions and colors. -/
def Vertex.average (vertices : List Vertex) : Vertex :=
  let n : ℚ := vertices.length
  { position := ((vertices.map (·.position.1)).sum / n,
                 (vertices.map (·.position.2.1)).sum / n,
                 (vertices.map (·.position.2.2)).sum / n),
    color := ((vertices.map (·.color.1)).sum / n,
              (vertices.map (·.color.2.1)).sum / n,
              (vertices.map (·.color.2.2)).sum / n) }

/-- `Button::leftmost_value` — scan for the minimal x (strict `<`, first
occurrence kept), then scale by the surface width.  Rust indexes
`vertices[0]` and would panic on an empty list; that unreachable branch
returns 0. -/
def Button.leftmost_value (entity : Entity) : ℚ :=
  match entity.vertices with
  | [] => 0
  | v :: rest =>
    (rest.foldl (fun acc w => if w.position.1 < acc then w.position.1 else acc)
      v.position.1) * entity.surface_dimensions.horizontal

/-- `Button::rightmost_value`. -/
def Button.rightmost_value (entity : Entity) : ℚ :=
  match entity.vertices with
  | [] => 0
  | v :: rest =>
    (rest.foldl (fun acc w => if w.position.1 > acc then w.position.1 else acc)
      v.position.1) * entity.surface_dimensions.horizontal

/-- `Button::topmost_value`. -/
def Button.topmost_value (entity : Entity) : ℚ :=
  match entity.vertices with
  | [] => 0
  | v :: rest =>
    (rest.foldl (fun acc w => if w.position.2.1 > acc then w.position.2.1 else acc)
      v.position.2.1) * entity.surface_dimensions.vertical

/-- `Button::bottommost_value`. -/
def Button.bottommost_value (entity : Entity) : ℚ :=
  match entity.vertices with
  | [] => 0
  | v :: rest =>
    (rest.foldl (fun acc w => if w.position.2.1 < acc then w.position.2.1 else acc)
      v.position.2.1) * entity.surface_dimensions.vertical

/-- `Button`. -/
structure Button where
  inhabiting_scene : SceneName
  center : Vertex
  scene_request : SceneName
  entity : Entity
  dimensions : ButtonDimensions
deriving DecidableEq

/-- `Button::new`. -/
def Button.new (inhabiting_scene : SceneName) (scene_request : SceneName)
    (entity : Entity) : Button :=
  let dimensions : ButtonDimensions :=
    ⟨|Button.leftmost_value entity - Button.rightmost_value entity|,
     |Button.bottommost_value entity - Button.topmost_value entity|⟩
  let center := Vertex.average entity.vertices
  { inhabiting_scene, center, scene_request, entity, dimensions }

/-- `Button::left_bound` — `center.x - horizontal / 3.5`. -/
def Button.left_bound (b : Button) : ℚ :=
  b.center.position.1 - b.dimensions.horizontal / (7 / 2)

/-- `Button::right_bound`. -/
def Button.right_bound (b : Button) : ℚ :=
  b.center.position.1 + b.dimensions.horizontal / (7 / 2)

/-- `Button::top_bound`. -/
def Button.top_bound (b : Button) : ℚ :=
  b.center.position.2.1 + b.dimensions.vertical / (7 / 2)

/-- `Button::bottom_bound`. -/
def Button.bottom_bound (b : Button) : ℚ :=
  b.center.position.2.1 - b.dimensions.vertical / (7 / 2)

/-- `MousePosition`. -/
structure MousePosition where
  x : ℚ
  y : ℚ
  window_dimensions : ℚ × ℚ
deriving DecidableEq

/-- `MousePosition::new`. -/
def MousePosition.new (x y window_width window_height : ℚ) : MousePosition :=
  { x, y, window_dimensions := (window_width, window_height) }

/-- `MousePosition::update_window_dimensions`. -/
def MousePosition.update_window_dimensions (mp : MousePosition)
    (horizontal vertical : ℚ) : MousePosition :=
  { mp with window_dimensions := (horizontal, vertical) }

/-- `MousePosition::update_from_window_coords`. -/
def MousePosition.update_from_window_coords (mp : MousePosition)
    (new_x new_y : ℚ) : MousePosition :=
  { mp with x := new_x, y := new_y }

/-- `MousePosition::canvas_x` — `x - width / 2`. -/
def MousePosition.canvas_x (mp : MousePosition) : ℚ :=
  mp.x - mp.window_dimensions.1 / 2

/-- `MousePosition::canvas_y` — `-(y - height / 2)`. -/
def MousePosition.canvas_y (mp : MousePosition) : ℚ :=
  -(mp.y - mp.window_dimensions.2 / 2)

/-- `MousePosition::within_horizontal_bounds`. -/
def MousePosition.within_horizontal_bounds (mp : MousePosition)
    (x_left x_right : ℚ) : Bool :=
  decide (mp.canvas_x ≥ x_left) && decide (mp.canvas_x ≤ x_right)

/-- `MousePosition::within_vertical_bounds`. -/
def MousePosition.within_vertical_bounds (mp : MousePosition)
    (y_bottom y_top : ℚ) : Bool :=
  decide (mp.canvas_y ≥ y_bottom) && decide (mp.canvas_y ≤ y_top)

/-- `MousePosition::between`. -/
def MousePosition.between (mp : MousePosition)
    (x_left x_right y_bottom y_top : ℚ) : Bool :=
  mp.within_horizontal_bounds x_left x_right &&
    mp.within_vertical_bounds y_bottom y_top

/-- The scene registry: `HashMap<SceneName, Vec<Entity>>` embedded as an
association list (the code only inserts at construction, looks up, and
pushes; iteration order is never observed). -/
def SceneMap : Type := List (SceneName × List Entity)

/-- `HashMap::get` on the registry. -/
def lookupScene : SceneMap → SceneName → Option (List Entity)
  | [], _ => none
  | (k, v) :: rest, scene => if k = scene then some v else lookupScene rest scene

/-- `scenes.get_mut(scene).unwrap().push(entity)` — `none` models the
`unwrap` panic when the scene key is absent. -/
def pushEntity : SceneMap → SceneName → Entity → Option SceneMap
  | [], _, _ => none
  | (k, v) :: rest, scene, e =>
    if k = scene then some ((k, v ++ [e]) :: rest)
    else (pushEntity rest scene e).map ((k, v) :: ·)

/-- `MasterWindowState` — GPU surface/device/queue and the winit window are
out of scope; `config`'s width/height mirror `size` as in the source. -/
structure MasterWindowState where
  size : ℕ × ℕ
  config : ℕ × ℕ
  cur_scene : SceneName
  buttons : List Button
  scenes : SceneMap
  mouse_position : MousePosition

/-- `MasterWindowState::new` — the four `scenes.insert` calls on the fresh
map, `cur_scene` defaulted to `Home`, mouse at the origin with the window's
inner size. -/
def MasterWindowState.new (width height : ℕ) : MasterWindowState :=
  { size := (width, height),
    config := (width, height),
    cur_scene := .Home,
    buttons := [],
    scenes := [(.Home, []), (.RootPicker, []), (.Grapher, []), (.Simulation, [])],
    mouse_position := MousePosition.new 0 0 (width : ℚ) (height : ℚ) }

/-- `MasterWindowState::add_button` — tessellate (`unwrap` of the
`from_shape` result modelled as `none`), build against the current size,
wrap in a `Button`, push onto the button list. -/
def MasterWindowState.add_button (s : MasterWindowState) (t : Trig)
    (scene : SceneName) (shape : ShapeKind) (vertices : List Vertex)
    (scene_request : SceneName) : Option MasterWindowState :=
  match EntityBuilder.from_shape t shape vertices with
  | .error _ => none
  | .ok b =>
    let entity := b.build (s.size.1 : ℚ) (s.size.2 : ℚ)
    let button := Button.new scene scene_request entity
    some { s with buttons := s.buttons ++ [button] }

/-- The `match self.cur_scene` body of `MasterWindowState::next_scene`. -/
def nextScene : SceneName → SceneName
  | .Home => .RootPicker
  | .RootPicker => .Grapher
  | .Grapher => .Simulation
  | .Simulation => .Home

/-- `MasterWindowState::next_scene`. -/
def MasterWindowState.next_scene (s : MasterWindowState) : SceneName :=
  nextScene s.cur_scene

/-- The `match self.cur_scene` body of `MasterWindowState::previous_scene`. -/
def previousScene : SceneName → SceneName
  | .Home => .Home
  | .RootPicker => .Home
  | .Grapher => .RootPicker
  | .Simulation => .Grapher

/-- `MasterWindowState::previous_scene`. -/
def MasterWindowState.previous_scene (s : MasterWindowState) : SceneName :=
  previousScene s.cur_scene

/-- `MasterWindowState::add_entity`. -/
def MasterWindowState.add_entity (s : MasterWindowState) (scene : SceneName)
    (entity : Entity) : Option MasterWindowState :=
  (pushEntity s.scenes scene entity).map fun m => { s with scenes := m }

/-- `MasterWindowState::add_shape` — tessellate, build against the current
size, push into the scene's draw list; either `unwrap` panic is `none`. -/
def MasterWindowState.add_shape (s : MasterWindowState) (t : Trig)
    (scene : SceneName) (kind : ShapeKind) (vertices : List Vertex) :
    Option MasterWindowState :=
  match EntityBuilder.from_shape t kind vertices with
  | .error _ => none
  | .ok b =>
    (pushEntity s.scenes scene (b.build (s.size.1 : ℚ) (s.size.2 : ℚ))).map
      fun m => { s with scenes := m }

/-- `MasterWindowState::resize` — stores the new size unconditionally (the
surface reconfigure is backend work, out of scope).  Note there is no
positive-dimension guard in the source. -/
def MasterWindowState.resize (s : MasterWindowState) (new_size : ℕ × ℕ) :
    MasterWindowState :=
  { s with size := new_size, config := new_size }

/-- `winit::event::MouseButton`. -/
inductive MouseButtonE where
  | Left : MouseButtonE
  | Right : MouseButtonE
  | Middle : MouseButtonE
  | Other : ℕ → MouseButtonE
deriving DecidableEq

/-- `winit::event::ElementState`. -/
inductive ElementStateE where
  | Pressed : ElementStateE
  | Released : ElementStateE
deriving DecidableEq

/-- The `winit::event::WindowEvent` cases `MasterWindowState::input`
distinguishes; every other window event falls into its `_ => {}` arm and is
`OtherEvent` here. -/
inductive WindowEventE where
  | CursorMoved : ℚ → ℚ → WindowEventE
  | MouseInput : ElementStateE → MouseButtonE → WindowEventE
  | OtherEvent : WindowEventE
deriving DecidableEq

/-- The hit test applied to each button in the press loop: the
`filter(|b| b.inhabiting_scene == current_scene)` guard together with the
`mouse_position.between(left, right, bottom, top)` test. -/
def Button.matches (b : Button) (current_scene : SceneName)
    (mp : MousePosition) : Bool :=
  decide (b.inhabiting_scene = current_scene) &&
    mp.between b.left_bound b.right_bound b.bottom_bound b.top_bound

/-- `MasterWindowState::input`.  The press branch snapshots `cur_scene`,
then walks the button list in order, assigning `cur_scene` for every
matching button (there is no `break`); `MouseInput` with
`ElementState::Released` falls through to the `_` arm. -/
def MasterWindowState.input (s : MasterWindowState) (event : WindowEventE) :
    MasterWindowState :=
  match event with
  | .CursorMoved x y =>
    { s with mouse_position := s.mouse_position.update_from_window_coords x y }
  | .MouseInput .Pressed button =>
    if button ≠ .Left then s
    else
      let scanned :=
        s.buttons.foldl
          (fun sc b =>
            if b.matches s.cur_scene s.mouse_position then b.scene_request
            else sc)
          s.cur_scene
      { s with cur_scene := scanned }
  | _ => s

/-! ## Concrete inputs used by witnesses and counterexamples -/

/-- An all-white vertex color, `[1.0, 1.0, 1.0]`. -/
def whiteColor : ℚ × ℚ × ℚ := (1, 1, 1)

/-- The rectangle control vertices of the button built in `main.rs`:
`(-200, 50), (-200, -50), (200, -50), (200, 50)`. -/
def rectVertices : List Vertex :=
  [⟨(-200, 50, 0), whiteColor⟩, ⟨(-200, -50, 0), whiteColor⟩,
   ⟨(200, -50, 0), whiteColor⟩, ⟨(200, 50, 0), whiteColor⟩]

/-- A concrete triangle whose raw vertex mean is `(200, 100, 0)`. -/
def triVertices : List Vertex :=
  [⟨(100, 0, 0), whiteColor⟩, ⟨(300, 0, 0), whiteColor⟩,
   ⟨(200, 300, 0), whiteColor⟩]

/-- An 800×600 window whose `Home` scene got two overlapping rectangle
buttons (first requesting `RootPicker`, then `Grapher`) and whose cursor
was moved to window coordinates `(400, 300)` — canvas `(0, 0)`, inside
both buttons. -/
def twoButtonState : MasterWindowState :=
  (((((MasterWindowState.new 800 600).add_button trig0 .Home .Rectangle
        rectVertices .RootPicker).bind
      (fun s => s.add_button trig0 .Home .Rectangle rectVertices .Grapher)).getD
      (MasterWindowState.new 800 600)).input (.CursorMoved 400 300))

/-- Spec-side channel sum used to compare `Color::mix` against the plain
(unbounded) channel-wise average the spec describes. -/
def channelSum (colors : List Color) (i : Fin 4) : ℕ :=
  (colors.map (fun c => c.channels i)).sum

/-! ## Helper lemmas -/

/-- A step-wise `u32`-wrapping accumulation equals the plain sum reduced
once, provided the accumulator is already reduced. -/
theorem foldl_mod_add (M : ℕ) (l : List ℕ) :
    ∀ a : ℕ, a % M = a →
      l.foldl (fun acc x => (acc + x) % M) a = (a + l.sum) % M := by
  induction l with
  | nil => intro a ha; simpa using ha.symm
  | cons x xs ih =>
    intro a ha
    simp only [List.foldl_cons, List.sum_cons]
    rw [ih ((a + x) % M) (Nat.mod_mod_of_dvd _ (dvd_refl M)),
      Nat.mod_add_mod, Nat.add_assoc]

/-- The channel accumulation loop of `Color::mix`, in closed form. -/
theorem mix_channels_eq (l : List Color) (i : Fin 4) :
    l.foldl (fun acc c => (acc + c.channels i) % U32MOD) 0 =
      channelSum l i % U32MOD := by
  have h := List.foldl_map (fun c : Color => c.channels i)
    (fun acc x => (acc + x) % U32MOD) l 0
  rw [channelSum, ← h, foldl_mod_add U32MOD _ 0 (Nat.zero_mod _), Nat.zero_add]

/-- Folding an overwrite-on-match assignment over a list yields the last
matching element's request, or the initial value when nothing matches. -/
theorem foldl_assign_eq_getLast (p : Button → Bool) (req : Button → SceneName) :
    ∀ (l : List Button) (s0 : SceneName),
      l.foldl (fun sc b => if p b then req b else sc) s0 =
        (((l.filter p).getLast?).map req).getD s0 := by
  intro l
  induction l with
  | nil => intro s0; rfl
  | cons b rest ih =>
    intro s0
    by_cases hb : p b
    · simp only [List.foldl_cons, hb, if_pos, List.filter_cons_of_pos hb]
      rw [ih (req b)]
      rcases hf : rest.filter p with _ | ⟨c, cs⟩
      · simp
      · have hne : (c :: cs) ≠ [] := by simp
        obtain ⟨d, hd⟩ := Option.isSome_iff_exists.mp
          (List.getLast?_isSome.mpr hne)
        rw [List.getLast?_cons_cons, hd]
        simp
    · simp only [List.foldl_cons, hb, if_neg, Bool.false_eq_true,
        not_false_iff, List.filter_cons_of_neg hb]
      exact ih s0

/-- Appending a fixed three-element block per step grows the list by three
per step. -/
theorem length_foldl_append_three (step : ℕ → List Vertex)
    (hstep : ∀ i, (step i).length = 3) :
    ∀ (l : List ℕ) (acc : List Vertex),
      (l.foldl (fun a i => a ++ step i) acc).length =
        acc.length + 3 * l.length := by
  intro l
  induction l with
  | nil => intro acc; simp
  | cons i rest ih =>
    intro acc
    simp only [List.foldl_cons, List.length_cons, ih, List.length_append,
      hstep]
    ring

/-- The circle fan always emits exactly 1080 vertices: a seam vertex and
the center, three vertices for each of the 359 interior degree steps, a
trailing seam vertex, reversed. -/
theorem circlePoints_length (t : Trig) (radius : ℚ) (center : Vertex) :
    (circlePoints t radius center).length = 1080 := by
  unfold circlePoints
  rw [List.length_reverse, List.length_append,
    length_foldl_append_three
      (fun i => [circleRim t radius center i, circleRim t radius center i,
                 center])
      (fun i => rfl)]
  simp [List.length_range']

/-- `from_shape` succeeds on an exactly-specified vertex list, with the
kind-determined output length. -/
theorem from_shape_ok_of_length (t : Trig) (kind : ShapeKind)
    (vs : List Vertex) (h : vs.length = kind.requisite_points) :
    ∃ points, EntityBuilder.from_shape t kind vs = .ok ⟨points⟩ ∧
      points.length =
        (match kind with
         | .Triangle => 3
         | .Rectangle => 6
         | .Circle _ => 1080) := by
  have hcmp : compare vs.length kind.requisite_points = .eq :=
    Nat.compare_eq_eq.mpr h
  cases kind with
  | Triangle =>
    refine ⟨vs, ?_, h⟩
    unfold EntityBuilder.from_shape EntityBuilder.valid_vertex_number
    rw [hcmp]
  | Rectangle =>
    rcases vs with _ | ⟨v0, _ | ⟨v1, _ | ⟨v2, _ | ⟨v3, _ | ⟨v4, rest⟩⟩⟩⟩⟩ <;>
      simp only [ShapeKind.requisite_points, List.length_cons,
        List.length_nil] at h <;> try omega
    refine ⟨[v0, v1, v2, v2, v3, v0], ?_, rfl⟩
    unfold EntityBuilder.from_shape EntityBuilder.valid_vertex_number
    rw [show compare [v0, v1, v2, v3].length
          ShapeKind.Rectangle.requisite_points = .eq from hcmp]
  | Circle radius =>
    rcases vs with _ | ⟨c, _ | ⟨c1, rest⟩⟩ <;>
      simp only [ShapeKind.requisite_points, List.length_cons,
        List.length_nil] at h <;> try omega
    refine ⟨circlePoints t radius c, ?_, ?_⟩
    · unfold EntityBuilder.from_shape EntityBuilder.valid_vertex_number
      rw [show compare [c].length
            (ShapeKind.Circle radius).requisite_points = .eq from hcmp]
    · exact circlePoints_length t radius c

/-- `from_shape` on a triangle with exactly three control vertices passes
them through. -/
theorem from_shape_triangle_eq (t : Trig) (v0 v1 v2 : Vertex) :
    EntityBuilder.from_shape t .Triangle [v0, v1, v2] = .ok ⟨[v0, v1, v2]⟩ := by
  unfold EntityBuilder.from_shape EntityBuilder.valid_vertex_number
  rw [show compare [v0, v1, v2].length ShapeKind.Triangle.requisite_points =
    .eq from Nat.compare_eq_eq.mpr rfl]

/-- `from_shape` on a rectangle with exactly four control vertices splits
the quad along the diagonal into triangles `(0,1,2)` and `(2,3,0)`. -/
theorem from_shape_rectangle_eq (t : Trig) (v0 v1 v2 v3 : Vertex) :
    EntityBuilder.from_shape t .Rectangle [v0, v1, v2, v3] =
      .ok ⟨[v0, v1, v2, v2, v3, v0]⟩ := by
  unfold EntityBuilder.from_shape EntityBuilder.valid_vertex_number
  rw [show compare [v0, v1, v2, v3].length
    ShapeKind.Rectangle.requisite_points = .eq from Nat.compare_eq_eq.mpr rfl]

/-- `Color::mix` in closed form: channel-wise wrapped sum, truncating
division by the wrapped length, handed to `with_alpha`. -/
theorem mix_eq_closed_form (l : List Color) (hl : l ≠ []) :
    Color.mix l =
      Color.with_alpha
        (channelSum l 0 % U32MOD / (l.length % U32MOD))
        (channelSum l 1 % U32MOD / (l.length % U32MOD))
        (channelSum l 2 % U32MOD / (l.length % U32MOD))
        (channelSum l 3 % U32MOD / (l.length % U32MOD)) := by
  unfold Color.mix
  rw [if_neg (by simpa [List.isEmpty_iff] using hl)]
  simp only [mix_channels_eq]

/-- Pushing onto an existing scene of the registry succeeds, appends to
that scene's list, and leaves every other scene's list untouched. -/
theorem pushEntity_spec (e : Entity) (sc : SceneName) :
    ∀ (m : SceneMap) (l : List Entity), lookupScene m sc = some l →
      ∃ m', pushEntity m sc e = some m' ∧
        lookupScene m' sc = some (l ++ [e]) ∧
        ∀ sc', sc' ≠ sc → lookupScene m' sc' = lookupScene m sc' := by
  intro m
  induction m with
  | nil => intro l hl; simp [lookupScene] at hl
  | cons p rest ih =>
    obtain ⟨k, v⟩ := p
    intro l hl
    by_cases hk : k = sc
    · simp only [lookupScene, if_pos hk] at hl
      injection hl with hl
      refine ⟨(k, v ++ [e]) :: rest, ?_, ?_, ?_⟩
      · simp only [pushEntity, if_pos hk]
      · simp only [lookupScene, if_pos hk, hl]
      · intro sc' hne
        have hks : ¬ (k = sc') := fun hks' => hne (hks'.symm.trans hk)
        simp only [lookupScene, if_neg hks]
    · simp only [lookupScene, if_neg hk] at hl
      obtain ⟨m'', hm'', hl'', hoth⟩ := ih l hl
      refine ⟨(k, v) :: m'', ?_, ?_, ?_⟩
      · simp only [pushEntity, if_neg hk, hm'']
        rfl
      · simp only [lookupScene, if_neg hk, hl'']
      · intro sc' hne
        by_cases hks : k = sc'
        · simp only [lookupScene, if_pos hks]
        · simp only [lookupScene, if_neg hks, hoth sc' hne]

/-! ## Claims -/

/-- C2: `MasterWindowState::resize` has no positive-dimension guard — a
resize to width 0 replaces the stored 800×600 viewport dimensions instead
of being rejected, contradicting the claim that zero-dimension resizes
leave the stored dimensions unchanged. -/
theorem c2_resize_zero_width_is_applied :
    (MasterWindowState.new 800 600).size = (800, 600) ∧
    ((MasterWindowState.new 800 600).resize (0, 500)).size = (0, 500) ∧
    ((MasterWindowState.new 800 600).resize (0, 500)).config = (0, 500) ∧
    ((0, 500) : ℕ × ℕ) ≠ (800, 600) := by
  refine ⟨rfl, rfl, rfl, by decide⟩

/-- C4: for every `ShapeKind` and vertex list, tessellation fails with
`VertexUnderspecification(kind)` exactly when the list has fewer than
`requisite_points()` elements, with `VertexOverspecification(kind)` exactly
when it has more, and succeeds exactly on equality; `requisite_points` is
3 for `Triangle`, 4 for `Rectangle`, 1 for `Circle`. -/
theorem c4_from_shape_count_validation (t : Trig) (kind : ShapeKind)
    (vs : List Vertex) :
    (EntityBuilder.from_shape t kind vs =
        .error (.VertexUnderspecification kind) ↔
      vs.length < kind.requisite_points) ∧
    (EntityBuilder.from_shape t kind vs =
        .error (.VertexOverspecification kind) ↔
      kind.requisite_points < vs.length) ∧
    ((∃ b, EntityBuilder.from_shape t kind vs = .ok b) ↔
      vs.length = kind.requisite_points) ∧
    ShapeKind.Triangle.requisite_points = 3 ∧
    ShapeKind.Rectangle.requisite_points = 4 ∧
    (∀ r : ℚ, (ShapeKind.Circle r).requisite_points = 1) := by
  refine ⟨?_, ?_, ?_, rfl, rfl, fun r => rfl⟩ <;>
    rcases Nat.lt_trichotomy vs.length kind.requisite_points with h | h | h
  · have e : EntityBuilder.from_shape t kind vs =
        .error (.VertexUnderspecification kind) := by
      unfold EntityBuilder.from_shape EntityBuilder.valid_vertex_number
      rw [Nat.compare_eq_lt.mpr h]
    simp [e, h]
  · have e : EntityBuilder.valid_vertex_number kind vs.length = none := by
      unfold EntityBuilder.valid_vertex_number
      rw [Nat.compare_eq_eq.mpr h]
    constructor
    · intro he
      exfalso
      revert he
      unfold EntityBuilder.from_shape
      rw [e]
      simp
    · omega
  · have e : EntityBuilder.from_shape t kind vs =
        .error (.VertexOverspecification kind) := by
      unfold EntityBuilder.from_shape EntityBuilder.valid_vertex_number
      rw [Nat.compare_eq_gt.mpr h]
    simp [e]
    omega
  · have e : EntityBuilder.from_shape t kind vs =
        .error (.VertexUnderspecification kind) := by
      unfold EntityBuilder.from_shape EntityBuilder.valid_vertex_number
      rw [Nat.compare_eq_lt.mpr h]
    simp [e]
    omega
  · have e : EntityBuilder.valid_vertex_number kind vs.length = none := by
      unfold EntityBuilder.valid_vertex_number
      rw [Nat.compare_eq_eq.mpr h]
    constructor
    · intro he
      exfalso
      revert he
      unfold EntityBuilder.from_shape
      rw [e]
      simp
    · omega
  · have e : EntityBuilder.from_shape t kind vs =
        .error (.VertexOverspecification kind) := by
      unfold EntityBuilder.from_shape EntityBuilder.valid_vertex_number
      rw [Nat.compare_eq_gt.mpr h]
    simp [e, h]
  · have e : EntityBuilder.from_shape t kind vs =
        .error (.VertexUnderspecification kind) := by
      unfold EntityBuilder.from_shape EntityBuilder.valid_vertex_number
      rw [Nat.compare_eq_lt.mpr h]
    constructor
    · intro ⟨b, hb⟩
      rw [e] at hb
      exact absurd hb (by simp)
    · omega
  · obtain ⟨points, hpts, _⟩ := from_shape_ok_of_length t kind vs h
    constructor
    · intro _; exact h
    · intro _; exact ⟨⟨points⟩, hpts⟩
  · have e : EntityBuilder.from_shape t kind vs =
        .error (.VertexOverspecification kind) := by
      unfold EntityBuilder.from_shape EntityBuilder.valid_vertex_number
      rw [Nat.compare_eq_gt.mpr h]
    constructor
    · intro ⟨b, hb⟩
      rw [e] at hb
      exact absurd hb (by simp)
    · omega

/-- C5: whenever `vertices.len() == kind.requisite_points()`, tessellation
succeeds with a non-empty output whose length is a pure function of the
kind: 3 for Triangle, 6 for Rectangle, and the fixed circle-fan count, 1080
vertices, coming from the 1-degree angular stepping (three vertices for
each step of `for i in 1..360` plus the seam-closing vertices at angle 0
and the leading center). -/
theorem c5_from_shape_success_counts (t : Trig) (kind : ShapeKind)
    (vs : List Vertex) (h : vs.length = kind.requisite_points) :
    ∃ points, EntityBuilder.from_shape t kind vs = .ok ⟨points⟩ ∧
      points ≠ [] ∧
      points.length =
        (match kind with
         | .Triangle => 3
         | .Rectangle => 6
         | .Circle _ => 1080) := by
  obtain ⟨points, hok, hlen⟩ := from_shape_ok_of_length t kind vs h
  refine ⟨points, hok, ?_, hlen⟩
  intro hnil
  rw [hnil] at hlen
  cases kind <;> simp at hlen

/-- C5 witness: a concrete triangle tessellates to its own three
vertices. -/
theorem c5_witness :
    ∃ points,
      EntityBuilder.from_shape trig0 .Triangle triVertices = .ok ⟨points⟩ ∧
      points ≠ [] ∧
      points.length =
        (match ShapeKind.Triangle with
         | .Triangle => 3
         | .Rectangle => 6
         | .Circle _ => 1080) :=
  c5_from_shape_success_counts trig0 .Triangle triVertices (by rfl)

/-- C6: `next_scene` is a total bijection on the four `SceneName` values
forming a single 4-cycle Home→RootPicker→Grapher→Simulation→Home, while
`previous_scene` follows the literal table Home→Home, RootPicker→Home,
Grapher→RootPicker, Simulation→Grapher and is therefore not the inverse of
`next_scene`. -/
theorem c6_scene_cycle :
    Function.Bijective nextScene ∧
    (∀ sc : SceneName, nextScene (nextScene (nextScene (nextScene sc))) = sc) ∧
    nextScene .Home = .RootPicker ∧
    nextScene .RootPicker = .Grapher ∧
    nextScene .Grapher = .Simulation ∧
    nextScene .Simulation = .Home ∧
    previousScene .Home = .Home ∧
    previousScene .RootPicker = .Home ∧
    previousScene .Grapher = .RootPicker ∧
    previousScene .Simulation = .Grapher ∧
    ¬ (∀ sc : SceneName, nextScene (previousScene sc) = sc) ∧
    (∀ s : MasterWindowState, s.next_scene = nextScene s.cur_scene) ∧
    (∀ s : MasterWindowState, s.previous_scene = previousScene s.cur_scene) := by
  refine ⟨⟨?_, ?_⟩, ?_, rfl, rfl, rfl, rfl, rfl, rfl, rfl, rfl, ?_,
    fun s => rfl, fun s => rfl⟩
  · intro a b hab
    cases a <;> cases b <;> first | rfl | exact absurd hab (by decide)
  · intro b
    cases b with
    | Home => exact ⟨.Simulation, rfl⟩
    | RootPicker => exact ⟨.Home, rfl⟩
    | Grapher => exact ⟨.RootPicker, rfl⟩
    | Simulation => exact ⟨.Grapher, rfl⟩
  · intro sc; cases sc <;> rfl
  · intro hall
    exact absurd (hall .Home) (by decide)

/-- C8: for every stored pointer position and window dimensions,
`canvas_x()` is `x - width/2`, `canvas_y()` is `-(y - height/2)` (vertical
axis flipped so up is positive), and `between` holds exactly when the
canvas coordinates lie within the four bounds, all inclusive. -/
theorem c8_canvas_transform_and_between (mp : MousePosition)
    (x_left x_right y_bottom y_top : ℚ) :
    mp.canvas_x = mp.x - mp.window_dimensions.1 / 2 ∧
    mp.canvas_y = -(mp.y - mp.window_dimensions.2 / 2) ∧
    (mp.between x_left x_right y_bottom y_top = true ↔
      (x_left ≤ mp.canvas_x ∧ mp.canvas_x ≤ x_right ∧
       y_bottom ≤ mp.canvas_y ∧ mp.canvas_y ≤ y_top)) := by
  refine ⟨rfl, rfl, ?_⟩
  simp [MousePosition.between, MousePosition.within_horizontal_bounds,
    MousePosition.within_vertical_bounds, Bool.and_eq_true,
    decide_eq_true_iff, ge_iff_le, and_assoc]

/-- C10: every input event other than a left-mouse-button press leaves the
current scene unchanged — a cursor move only rewrites the stored mouse
position, a press of a non-left button is ignored entirely, a release and
every other window event leave the whole state as it was. -/
theorem c10_non_left_press_is_noop (s : MasterWindowState) :
    (∀ x y : ℚ, s.input (.CursorMoved x y) =
      { s with mouse_position :=
          s.mouse_position.update_from_window_coords x y }) ∧
    (∀ x y : ℚ, (s.input (.CursorMoved x y)).cur_scene = s.cur_scene) ∧
    (∀ b : MouseButtonE, b ≠ .Left →
      s.input (.MouseInput .Pressed b) = s) ∧
    (∀ b : MouseButtonE, s.input (.MouseInput .Released b) = s) ∧
    s.input .OtherEvent = s := by
  refine ⟨fun x y => rfl, fun x y => rfl, ?_, fun b => rfl, rfl⟩
  intro b hb
  simp [MasterWindowState.input, hb]

/-- C10 witness: a right-button press on a fresh 800×600 window changes
nothing. -/
theorem c10_witness :
    (MasterWindowState.new 800 600).input (.MouseInput .Pressed .Right) =
      MasterWindowState.new 800 600 :=
  (c10_non_left_press_is_noop (MasterWindowState.new 800 600)).2.2.1 .Right
    (by decide)

/-- C1 counterexample: in `twoButtonState` both `Home` buttons contain the
pointer and the first-registered one requests `RootPicker`, but a left
press moves the state machine to `Grapher`, the LAST matching button's
request — the assignment loop has no break, so first-match-wins is false
at this input. -/
theorem c1_counterexample_first_match_loses :
    twoButtonState.cur_scene = .Home ∧
    twoButtonState.buttons.map Button.scene_request =
      [.RootPicker, .Grapher] ∧
    twoButtonState.buttons.map
        (fun b => b.matches twoButtonState.cur_scene
          twoButtonState.mouse_position) = [true, true] ∧
    (twoButtonState.input (.MouseInput .Pressed .Left)).cur_scene =
      .Grapher ∧
    SceneName.Grapher ≠ SceneName.RootPicker := by
  refine ⟨?_, ?_, ?_, ?_, by simp⟩ <;>
    norm_num [twoButtonState, MasterWindowState.new,
      MasterWindowState.add_button, MasterWindowState.input,
      from_shape_rectangle_eq, EntityBuilder.build, Entity.new,
      normalize_coordinates, Button.new, Vertex.average,
      Button.leftmost_value, Button.rightmost_value, Button.topmost_value,
      Button.bottommost_value, Button.left_bound, Button.right_bound,
      Button.top_bound, Button.bottom_bound, Button.matches,
      MousePosition.new, MousePosition.update_from_window_coords,
      MousePosition.canvas_x, MousePosition.canvas_y, MousePosition.between,
      MousePosition.within_horizontal_bounds,
      MousePosition.within_vertical_bounds, rectVertices, whiteColor,
      Bool.and_eq_true, decide_eq_true_eq]

/-- C1 (amended): on a left press, every button of the (snapshotted)
current scene whose bounding box contains the pointer overwrites
`cur_scene` in registration order, so the LAST matching button's
`scene_request` wins; if no button matches, the current scene is
unchanged. -/
theorem c1_left_press_last_match_wins (s : MasterWindowState) :
    (s.input (.MouseInput .Pressed .Left)).cur_scene =
      (((s.buttons.filter
            (fun b => b.matches s.cur_scene s.mouse_position)).getLast?).map
        Button.scene_request).getD s.cur_scene := by
  have h := foldl_assign_eq_getLast
    (fun b => b.matches s.cur_scene s.mouse_position) Button.scene_request
    s.buttons s.cur_scene
  simpa [MasterWindowState.input] using h

/-- C3: the `Button` built by `add_button` for a concrete triangle with
raw vertex mean `(200, 100, 0)` on an 800×600 window stores the mean of
the NORMALIZED tessellated vertices, `(1/4, 1/6, 0)`, not the raw mean —
while its dimensions `(200, 300)` are recovered in raw pixel space, so the
hit region mixes coordinate spaces, the defect the spec warns about. -/
theorem c3_button_center_is_normalized_not_raw :
    ((MasterWindowState.new 800 600).add_button trig0 .Home .Triangle
        triVertices .RootPicker).map
        (fun s => s.buttons.map (fun b => b.center.position)) =
      some [((1 : ℚ)/4, (1 : ℚ)/6, (0 : ℚ))] ∧
    ((MasterWindowState.new 800 600).add_button trig0 .Home .Triangle
        triVertices .RootPicker).map
        (fun s => s.buttons.map
          (fun b => (b.dimensions.horizontal, b.dimensions.vertical))) =
      some [((200 : ℚ), (300 : ℚ))] ∧
    (Vertex.average triVertices).position =
      ((200 : ℚ), (100 : ℚ), (0 : ℚ)) ∧
    (((1 : ℚ)/4, (1 : ℚ)/6, (0 : ℚ)) : ℚ × ℚ × ℚ) ≠
      ((200 : ℚ), (100 : ℚ), (0 : ℚ)) := by
  refine ⟨?_, ?_, ?_, ?_⟩ <;>
    norm_num [MasterWindowState.new, MasterWindowState.add_button,
      from_shape_triangle_eq, EntityBuilder.build, Entity.new,
      normalize_coordinates, Button.new, Vertex.average,
      Button.leftmost_value, Button.rightmost_value, Button.topmost_value,
      Button.bottommost_value, MousePosition.new, triVertices, whiteColor]

/-- C7: `Color::mix` of a non-empty list averages each of the four
channels independently with truncating integer division (channel sums and
the length taken through `u32` wrap-around, invisible below `2^32`), is
invariant under permutations of the input, and is the identity on
single-element lists. -/
theorem c7_color_mix_props :
    (∀ c : Color, (∀ i, c.channels i ≤ 255) → Color.mix [c] = some c) ∧
    (∀ l l' : List Color, l.Perm l' → Color.mix l = Color.mix l') ∧
    (∀ (l : List Color) (c : Color), l ≠ [] → l.length < U32MOD →
      (∀ i, channelSum l i < U32MOD) →
      Color.mix l = some c →
      ∀ i, c.channels i = channelSum l i / l.length) := by
  refine ⟨?_, ?_, ?_⟩
  · intro c hc
    have hch : ∀ i : Fin 4, channelSum [c] i = c.channels i := by
      intro i; simp [channelSum]
    have hlt : ∀ i : Fin 4, c.channels i < U32MOD := by
      intro i
      calc c.channels i ≤ 255 := hc i
        _ < U32MOD := by norm_num [U32MOD]
    have h1 : (1 : ℕ) % U32MOD = 1 := Nat.mod_eq_of_lt (by norm_num [U32MOD])
    rw [mix_eq_closed_form [c] (by simp)]
    simp only [hch, List.length_cons, List.length_nil, h1, Nat.div_one]
    simp only [fun i => Nat.mod_eq_of_lt (hlt i)]
    have hb : ∀ i, Color.rgba_value_within_bounds (c.channels i) = true :=
      fun i => decide_eq_true (hc i)
    rw [Color.with_alpha, if_pos ⟨hb 0, hb 1, hb 2, hb 3⟩]
    have : ![c.channels 0, c.channels 1, c.channels 2, c.channels 3] =
        c.channels := by
      funext i; fin_cases i <;> rfl
    rw [this]
  · intro l l' hp
    rcases l with _ | ⟨a, as⟩
    · rw [hp.symm.eq_nil]
    · rcases l' with _ | ⟨b, bs⟩
      · exact absurd hp.eq_nil (by simp)
      · have hsum : ∀ i, channelSum (a :: as) i = channelSum (b :: bs) i :=
          fun i => by
            simpa [channelSum] using
              (hp.map (fun c : Color => c.channels i)).sum_eq
        rw [mix_eq_closed_form _ (by simp), mix_eq_closed_form _ (by simp),
          hp.length_eq, hsum 0, hsum 1, hsum 2, hsum 3]
  · intro l c hl hlen hsum hmix i
    rw [mix_eq_closed_form l hl] at hmix
    have hlm : l.length % U32MOD = l.length := Nat.mod_eq_of_lt hlen
    have hsm : ∀ j : Fin 4, channelSum l j % U32MOD = channelSum l j :=
      fun j => Nat.mod_eq_of_lt (hsum j)
    rw [hlm, hsm 0, hsm 1, hsm 2, hsm 3] at hmix
    rw [Color.with_alpha] at hmix
    split at hmix
    · injection hmix with hmix
      rw [← hmix]
      fin_cases i <;> simp
    · exact absurd hmix (by simp)

/-- C7 witness: identity on a singleton, commutativity on a concrete swap,
and the truncating channel average at a concrete two-color mix. -/
theorem c7_witness :
    Color.mix [(⟨![10, 20, 30, 255]⟩ : Color)] =
      some (⟨![10, 20, 30, 255]⟩ : Color) ∧
    Color.mix
        [(⟨![10, 20, 30, 255]⟩ : Color), (⟨![20, 40, 51, 255]⟩ : Color)] =
      Color.mix
        [(⟨![20, 40, 51, 255]⟩ : Color), (⟨![10, 20, 30, 255]⟩ : Color)] ∧
    (⟨![15, 30, 40, 255]⟩ : Color).channels 0 =
      channelSum
          [(⟨![10, 20, 30, 255]⟩ : Color), (⟨![20, 40, 51, 255]⟩ : Color)] 0 /
        ([(⟨![10, 20, 30, 255]⟩ : Color),
          (⟨![20, 40, 51, 255]⟩ : Color)] : List Color).length :=
  ⟨c7_color_mix_props.1 (⟨![10, 20, 30, 255]⟩ : Color) (by decide),
   c7_color_mix_props.2.1 _ _
     (List.Perm.swap (⟨![20, 40, 51, 255]⟩ : Color)
       (⟨![10, 20, 30, 255]⟩ : Color) []),
   c7_color_mix_props.2.2 _ (⟨![15, 30, 40, 255]⟩ : Color) (by decide)
     (by decide) (by decide) (by decide) 0⟩

/-- C9: the scene registry maps all four `SceneName`s to the empty draw
list at construction; `add_entity` and `add_shape` (on an exactly-specified
shape) succeed on any registered scene, appending one entity to that
scene's ordered list and leaving every other scene's list untouched; no
other state operation (`input`, `resize`, `add_button`) touches the
registry, so no scene entry is ever removed and lookups never fail. -/
theorem c9_scene_registry_total :
    (∀ (w h : ℕ) (sc : SceneName),
      lookupScene (MasterWindowState.new w h).scenes sc = some []) ∧
    (∀ (s : MasterWindowState) (sc : SceneName) (e : Entity)
        (l : List Entity), lookupScene s.scenes sc = some l →
      ∃ s', s.add_entity sc e = some s' ∧
        lookupScene s'.scenes sc = some (l ++ [e]) ∧
        (∀ sc', sc' ≠ sc →
          lookupScene s'.scenes sc' = lookupScene s.scenes sc')) ∧
    (∀ (t : Trig) (s : MasterWindowState) (sc : SceneName)
        (kind : ShapeKind) (vs : List Vertex) (l : List Entity),
      lookupScene s.scenes sc = some l →
      vs.length = kind.requisite_points →
      ∃ s' ent, s.add_shape t sc kind vs = some s' ∧
        lookupScene s'.scenes sc = some (l ++ [ent]) ∧
        (∀ sc', sc' ≠ sc →
          lookupScene s'.scenes sc' = lookupScene s.scenes sc')) ∧
    (∀ (s : MasterWindowState) (ev : WindowEventE),
      (s.input ev).scenes = s.scenes) ∧
    (∀ (s : MasterWindowState) (ns : ℕ × ℕ),
      (s.resize ns).scenes = s.scenes) ∧
    (∀ (t : Trig) (s : MasterWindowState) (sc : SceneName) (sh : ShapeKind)
        (vs : List Vertex) (req : SceneName),
      ((s.add_button t sc sh vs req).map MasterWindowState.scenes).getD
        s.scenes = s.scenes) := by
  refine ⟨?_, ?_, ?_, ?_, fun s ns => rfl, ?_⟩
  · intro w h sc
    cases sc <;> rfl
  · intro s sc e l hl
    obtain ⟨m', hm', hl', hoth⟩ := pushEntity_spec e sc s.scenes l hl
    refine ⟨{ s with scenes := m' }, ?_, hl', hoth⟩
    simp only [MasterWindowState.add_entity, hm']
    rfl
  · intro t s sc kind vs l hl hlen
    obtain ⟨points, hok, _⟩ := from_shape_ok_of_length t kind vs hlen
    obtain ⟨m', hm', hl', hoth⟩ := pushEntity_spec
      (EntityBuilder.build ⟨points⟩ (s.size.1 : ℚ) (s.size.2 : ℚ)) sc
      s.scenes l hl
    refine ⟨{ s with scenes := m' },
      EntityBuilder.build ⟨points⟩ (s.size.1 : ℚ) (s.size.2 : ℚ),
      ?_, hl', hoth⟩
    simp only [MasterWindowState.add_shape, hok, hm']
    rfl
  · intro s ev
    cases ev with
    | CursorMoved x y => rfl
    | OtherEvent => rfl
    | MouseInput st b =>
      cases st with
      | Released => rfl
      | Pressed =>
        by_cases hb : b = MouseButtonE.Left
        · subst hb
          simp [MasterWindowState.input]
        · simp [MasterWindowState.input, hb]
  · intro t s sc sh vs req
    cases hok : EntityBuilder.from_shape t sh vs with
    | error err => simp [MasterWindowState.add_button, hok]
    | ok b => simp [MasterWindowState.add_button, hok]

/-- C9 witness: on a fresh 800×600 state, appending a concrete entity to
`Home` and a concrete rectangle shape to `Grapher` both succeed with the
stated lookups. -/
theorem c9_witness :
    (∃ s', (MasterWindowState.new 800 600).add_entity .Home
        (Entity.new 800 600 []) = some s' ∧
      lookupScene s'.scenes .Home = some ([] ++ [Entity.new 800 600 []]) ∧
      (∀ sc', sc' ≠ SceneName.Home →
        lookupScene s'.scenes sc' =
          lookupScene (MasterWindowState.new 800 600).scenes sc')) ∧
    (∃ s' ent, (MasterWindowState.new 800 600).add_shape trig0 .Grapher
        .Rectangle rectVertices = some s' ∧
      lookupScene s'.scenes .Grapher = some ([] ++ [ent]) ∧
      (∀ sc', sc' ≠ SceneName.Grapher →
        lookupScene s'.scenes sc' =
          lookupScene (MasterWindowState.new 800 600).scenes sc')) :=
  ⟨c9_scene_registry_total.2.1 (MasterWindowState.new 800 600) .Home
      (Entity.new 800 600 []) [] (by rfl),
   c9_scene_registry_total.2.2.1 trig0 (MasterWindowState.new 800 600)
      .Grapher .Rectangle rectVertices [] (by rfl) (by rfl)⟩

end Marlin
